import Mathlib

/-!
Verification development for the answer-extraction and tolerant-validation
pipeline of the cocoa-agent example tasks.  The definitions below are a
shallow embedding of `cocoabench-example-tasks/eight-puzzle-game/test.py`
and `cocoabench-example-tasks/linear-regime-estimation/test.py`.
Python strings are modelled as Lean `String` (ASCII case mapping),
Python dicts carrying a parsed JSON payload as the inductive `JVal`,
and code that can raise an uncaught exception as `Except PyErr`.
-/

/-- Python whitespace for `str.strip` (ASCII fragment). -/
def isPySpace (c : Char) : Bool :=
  [' ', '\t', '\n', '\r', '\x0b', '\x0c'].contains c

/-- Python `str.strip()` on a character list. -/
def pyStripL (l : List Char) : List Char :=
  ((l.dropWhile isPySpace).reverse.dropWhile isPySpace).reverse

/-- Python `str.strip()`. -/
def pyStrip (s : String) : String := String.mk (pyStripL s.data)

/-- Python `str.upper()` (ASCII fragment). -/
def pyUpper (s : String) : String := String.mk (s.data.map Char.toUpper)

/-- Case-insensitive prefix test: the first `pat.length` characters of `s`,
lowercased, equal `pat` (which is given lowercase). -/
def lowerPrefix (pat : List Char) (s : List Char) : Bool :=
  decide ((s.take pat.length).map Char.toLower = pat)

/-- Scan `s` for the first (leftmost) case-insensitive occurrence of `pat`;
return the text before the occurrence and the text after it.  This is the
deterministic semantics of `re.search` for a literal pattern with
`re.IGNORECASE`. -/
def findAfterCI (pat : List Char) : List Char → Option (List Char × List Char)
  | [] => if lowerPrefix pat [] then some ([], []) else none
  | c :: t =>
    if lowerPrefix pat (c :: t) then some ([], (c :: t).drop pat.length)
    else
      match findAfterCI pat t with
      | some (pre, post) => some (c :: pre, post)
      | none => none

/-- JSON values, the model of Python objects produced by `json.loads`
(dict / list / str / int / float / bool / None).  Non-integral numbers keep
their decimal components (`neg`, integer part, fraction digits, exponent). -/
inductive JVal where
  | jnull
  | jbool (b : Bool)
  | jint (n : Int)
  | jnum (neg : Bool) (ip : Nat) (frac : List Nat) (ex : Int)
  | jstr (s : String)
  | jarr (es : List JVal)
  | jobj (fs : List (String × JVal))

/-- Python truthiness of a JSON value (`bool(x)`). -/
def pyTruthy : JVal → Bool
  | .jnull => false
  | .jbool b => b
  | .jint n => n != 0
  | .jnum _ ip frac _ => ip != 0 || frac.any (fun d => d != 0)
  | .jstr s => s != ""
  | .jarr es => !es.isEmpty
  | .jobj fs => !fs.isEmpty

/-- Python `key in d` for a dict represented as an insertion-ordered
association list. -/
def jHasKey (fs : List (String × JVal)) (k : String) : Bool :=
  (fs.map Prod.fst).contains k

/-- Python `d.get(key)` for a dict: with duplicate keys the later entry
overwrites the earlier one, so look the key up from the right. -/
def jGet (fs : List (String × JVal)) (k : String) : Option JVal :=
  fs.reverse.lookup k

/-- Python `type(x).__name__` for a JSON value. -/
def pyTypeName : JVal → String
  | .jnull => "NoneType"
  | .jbool _ => "bool"
  | .jint _ => "int"
  | .jnum _ _ _ _ => "float"
  | .jstr _ => "str"
  | .jarr _ => "list"
  | .jobj _ => "dict"

/-- JSON whitespace accepted by Python's `json.loads` between tokens. -/
def isJsonWs (c : Char) : Bool :=
  [' ', '\t', '\n', '\r'].contains c

/-- Hexadecimal digit value, for `\uXXXX` escapes. -/
def hexDigitVal (c : Char) : Option Nat :=
  let n := c.toNat
  if 48 ≤ n && n ≤ 57 then some (n - 48)
  else if 97 ≤ n && n ≤ 102 then some (n - 87)
  else if 65 ≤ n && n ≤ 70 then some (n - 55)
  else none

/-- Parse the body of a JSON string literal (opening quote already
consumed); rejects raw control characters as `json.loads` does.  `fuel`
bounds the recursion; callers supply more fuel than the input length. -/
def pJStr : Nat → List Char → List Char → Option (String × List Char)
  | 0, _, _ => none
  | _ + 1, acc, '\"' :: t => some (String.mk acc.reverse, t)
  | fuel + 1, acc, '\\' :: e :: t =>
    if e == '\"' || e == '\\' || e == '/' then pJStr fuel (e :: acc) t
    else if e == 'n' then pJStr fuel ('\n' :: acc) t
    else if e == 't' then pJStr fuel ('\t' :: acc) t
    else if e == 'r' then pJStr fuel ('\r' :: acc) t
    else if e == 'b' then pJStr fuel ('\x08' :: acc) t
    else if e == 'f' then pJStr fuel ('\x0c' :: acc) t
    else if e == 'u' then
      match t with
      | h1 :: h2 :: h3 :: h4 :: t2 =>
        (match hexDigitVal h1, hexDigitVal h2, hexDigitVal h3, hexDigitVal h4 with
         | some a, some b, some c, some d =>
           pJStr fuel (Char.ofNat (((a * 16 + b) * 16 + c) * 16 + d) :: acc) t2
         | _, _, _, _ => none)
      | _ => none
    else none
  | fuel + 1, acc, c :: t =>
    if c.toNat < 32 then none else pJStr fuel (c :: acc) t
  | _ + 1, _, [] => none

/-- Digits of a number, most significant first, to a natural number. -/
def digitsToNat (l : List Char) : Nat :=
  l.foldl (fun a c => a * 10 + (c.toNat - '0'.toNat)) 0

/-- Parse a JSON number (strict `json.loads` grammar: no leading zeros,
no bare `-`, fraction and exponent need at least one digit). -/
def pJNum (s : List Char) : Option (JVal × List Char) :=
  let neg : Bool := match s with
    | '-' :: _ => true
    | _ => false
  let s1 := if neg then s.tail else s
  let ds := s1.takeWhile Char.isDigit
  let s2 := s1.drop ds.length
  if ds.isEmpty then none
  else if ds.length > 1 && ds.headI = '0' then none
  else
    let ip := digitsToNat ds
    let (frac, s3) := match s2 with
      | '.' :: t =>
        let fd := t.takeWhile Char.isDigit
        (some (fd.map (fun c => c.toNat - '0'.toNat)), t.drop fd.length)
      | _ => (none, s2)
    match frac with
    | some [] => none
    | _ =>
      let (ex, s4) : Option Int × List Char := match s3 with
        | 'e' :: t | 'E' :: t =>
          let (esgn, t1) : Int × List Char := match t with
            | '-' :: t' => (-1, t')
            | '+' :: t' => (1, t')
            | _ => (1, t)
          let ed := t1.takeWhile Char.isDigit
          if ed.isEmpty then (none, t1)
          else (some (esgn * (digitsToNat ed : Int)), t1.drop ed.length)
        | _ => (some 0, s3)
      match ex with
      | none => none
      | some e =>
        if frac = none && e = 0 && (match s3 with | 'e' :: _ => false | 'E' :: _ => false | _ => true) then
          some (.jint (if neg then -(ip : Int) else (ip : Int)), s2)
        else
          some (.jnum neg ip (frac.getD []) e, s4)

mutual

/-- Parse one JSON value (model of the recursive descent inside
`json.loads`).  `fuel` bounds the recursion depth. -/
def pJVal : Nat → List Char → Option (JVal × List Char)
  | 0, _ => none
  | fuel + 1, s =>
    let s1 := s.dropWhile isJsonWs
    match s1 with
    | '{' :: t =>
      let t1 := t.dropWhile isJsonWs
      (match t1 with
       | '}' :: r => some (.jobj [], r)
       | _ => pJMembers fuel [] t1)
    | '[' :: t =>
      let t1 := t.dropWhile isJsonWs
      (match t1 with
       | ']' :: r => some (.jarr [], r)
       | _ => pJElems fuel [] t1)
    | '\"' :: t =>
      (match pJStr (t.length + 1) [] t with
       | some (str, r) => some (.jstr str, r)
       | none => none)
    | _ =>
      if (("true").data).isPrefixOf s1 then some (.jbool true, s1.drop 4)
      else if (("false").data).isPrefixOf s1 then some (.jbool false, s1.drop 5)
      else if (("null").data).isPrefixOf s1 then some (.jnull, s1.drop 4)
      else pJNum s1

/-- Parse the members of a JSON object, positioned at the start of a key. -/
def pJMembers : Nat → List (String × JVal) → List Char → Option (JVal × List Char)
  | 0, _, _ => none
  | fuel + 1, acc, s =>
    match s with
    | '\"' :: t =>
      (match pJStr (t.length + 1) [] t with
       | none => none
       | some (k, r) =>
         match r.dropWhile isJsonWs with
         | ':' :: r2 =>
           (match pJVal fuel r2 with
            | none => none
            | some (v, r3) =>
              match r3.dropWhile isJsonWs with
              | ',' :: r4 => pJMembers fuel ((k, v) :: acc) (r4.dropWhile isJsonWs)
              | '}' :: r4 => some (.jobj ((k, v) :: acc).reverse, r4)
              | _ => none)
         | _ => none)
    | _ => none

/-- Parse the elements of a JSON array, positioned at the start of an
element. -/
def pJElems : Nat → List JVal → List Char → Option (JVal × List Char)
  | 0, _, _ => none
  | fuel + 1, acc, s =>
    match pJVal fuel s with
    | none => none
    | some (v, r) =>
      match r.dropWhile isJsonWs with
      | ',' :: r2 => pJElems fuel (v :: acc) r2
      | ']' :: r2 => some (.jarr (v :: acc).reverse, r2)
      | _ => none

end

/-- Model of Python `json.loads`: parse a complete JSON document,
requiring the whole input to be consumed. -/
def jsonLoads (s : String) : Option JVal :=
  match pJVal (2 * s.data.length + 4) s.data with
  | some (v, r) => if (r.dropWhile isJsonWs).isEmpty then some v else none
  | none => none

/-- Tool-call arguments as reported by the model: either a JSON-encoded
string (to be decoded, tolerating failure) or an already-decoded value. -/
inductive ArgVal where
  | astr (s : String)
  | aval (v : JVal)

/-- The `function` mapping of a tool call: optional `name` and
`arguments` fields (`tc.get("function", {})` probing). -/
structure FuncObj where
  name : Option String
  arguments : Option ArgVal

/-- A tool call record; `invalid` stands for a list entry that is not a
dict and is skipped by the `isinstance` guard. -/
inductive ToolCall where
  | invalid
  | mk (function : Option FuncObj)

/-- A conversation message; `invalid` stands for a list entry that is not
a dict and is skipped by the `isinstance` guard. -/
inductive Message where
  | invalid
  | mk (role : Option String) (content : Option String) (tool_calls : Option (List ToolCall))

/-- The input record consumed from the task executor: `status`,
`conversation` and `task_result`, each possibly absent. -/
structure ResultRecord where
  status : Option String
  conversation : Option (List Message)
  task_result : Option String

/-- The evaluation outcome record `{passed, feedback, details}`. -/
structure TestOutcome where
  passed : Bool
  feedback : String
  details : List (String × JVal)

/-- Uncaught Python exceptions the embedding tracks: `ValueError` (with
its message) and `AttributeError`. -/
inductive PyErr where
  | valueError (msg : String)
  | attributeError
deriving DecidableEq

/-- Inspect one tool call of an assistant message for a
`task_complete` result payload (shared shape of both test files):
decode `arguments` (a decode failure or any error raised while probing
them is caught by `except (json.JSONDecodeError, Exception)` and skips
the tool call), require a dict with a `result` key holding a string, run
the text extractor on it and keep a truthy result.  A non-dict argument
value either fails the `"result" in args` test or raises inside the
`try`, so it likewise skips the tool call. -/
def tcResult {α : Type} (extractT : String → Option α) (truthy : α → Bool)
    (tc : ToolCall) : Option α :=
  match tc with
  | .invalid => none
  | .mk func =>
    match func with
    | none => none
    | some f =>
      if f.name == some ("task_complete") then
        let argsv : Option JVal := match f.arguments with
          | none => some (JVal.jobj [])
          | some (.astr s) => jsonLoads s
          | some (.aval v) => some v
        match argsv with
        | some (.jobj fields) =>
          if jHasKey fields ("result") then
            match jGet fields ("result") with
            | some (.jstr s) =>
              (match extractT s with
               | some a => if truthy a then some a else none
               | none => none)
            | _ => none
          else none
        | _ => none
      else none

/-- First pass over one message: an assistant message with a truthy
`tool_calls` list is searched, tool calls in order, for a
`task_complete` payload. -/
def msgToolResult {α : Type} (extractT : String → Option α) (truthy : α → Bool)
    (msg : Message) : Option α :=
  match msg with
  | .invalid => none
  | .mk role _ tcs =>
    if role == some ("assistant") then
      match tcs with
      | some l => if l.isEmpty then none else l.findSome? (tcResult extractT truthy)
      | none => none
    else none

/-- Second pass over one message: run the text extractor on an assistant
message's `content` (`None` becomes `""`), keeping a truthy result. -/
def msgContentResult {α : Type} (extractT : String → Option α) (truthy : α → Bool)
    (msg : Message) : Option α :=
  match msg with
  | .invalid => none
  | .mk role content _ =>
    if role == some ("assistant") then
      match extractT (content.getD ("")) with
      | some a => if truthy a then some a else none
      | none => none
    else none

/-- Conversation scan shared by `_extract_answer_from_conversation` and
`_extract_json_from_conversation`: one full pass over the reversed
conversation looking at `task_complete` tool calls, then — only if that
pass found nothing — a second full pass looking at message contents. -/
def scanConversation {α : Type} (extractT : String → Option α) (truthy : α → Bool)
    (conv : List Message) : Option α :=
  match conv.reverse.findSome? (msgToolResult extractT truthy) with
  | some a => some a
  | none => conv.reverse.findSome? (msgContentResult extractT truthy)

namespace EightPuzzle

/-- Ground truth value of the eight-puzzle task. -/
def EXPECTED_ANSWER : String := "EFPTGK"

/-- `_extract_answer_from_text`: first case-insensitive
`<answer>...</answer>` pair (lazy body, DOTALL), trimmed. -/
def extract_answer_from_text (text : String) : Option String :=
  match findAfterCI (("<answer>").data) text.data with
  | none => none
  | some (_, rest) =>
    match findAfterCI (("</answer>").data) rest with
    | none => none
    | some (body, _) => some (pyStrip (String.mk body))

/-- `_extract_answer_from_conversation`. -/
def extract_answer_from_conversation (conv : List Message) : Option String :=
  scanConversation extract_answer_from_text (fun s => s != "") conv

/-- `_normalize_answer`: strip whitespace, then uppercase. -/
def normalize_answer (a : String) : String := pyUpper (pyStrip a)

/-- The "no valid answer found" outcome of `test`. -/
def not_found_outcome (task_completed : Bool) (convLen : Nat) : TestOutcome :=
  { passed := false
    feedback := "No valid answer found in assistant responses. Expected format: <answer>CODE</answer>"
    details := [(("task_completed"), .jbool task_completed),
                (("conversation_length"), .jint (convLen : Int))] }

/-- The outcome of `test` once an answer has been extracted. -/
def verdict_outcome (task_completed : Bool) (output_answer : String) : TestOutcome :=
  let normalized_output := normalize_answer output_answer
  let normalized_expected := normalize_answer EXPECTED_ANSWER
  let answer_correct := normalized_output == normalized_expected
  let passed := task_completed && answer_correct
  { passed := passed
    feedback := String.intercalate "\n"
      ([("Found answer: " ++ output_answer),
        ((if answer_correct then "✓" else "✗") ++ " Code: got \x27" ++ output_answer
          ++ "\x27, expected \x27" ++ EXPECTED_ANSWER ++ "\x27.")]
        ++ (if task_completed then [] else [("✗ Task status is not success.")]))
    details := [(("task_completed"), .jbool task_completed),
                (("output_answer"), .jstr output_answer),
                (("answer_correct"), .jbool answer_correct),
                (("expected_answer"), .jstr EXPECTED_ANSWER)] }

/-- The source-precedence extraction pipeline inside `test`: a truthy
`task_result` is tried first; if its extraction is falsy, fall back to
the conversation. -/
def extracted_answer (r : ResultRecord) : Option String :=
  let conversation := r.conversation.getD []
  let oa1 : Option String := match r.task_result with
    | some t => if t = "" then none else extract_answer_from_text t
    | none => none
  match oa1 with
  | some a => if a = "" then extract_answer_from_conversation conversation else some a
  | none => extract_answer_from_conversation conversation

/-- `test` of the eight-puzzle task. -/
def test (r : ResultRecord) : TestOutcome :=
  let conversation := r.conversation.getD []
  let task_completed := r.status == some ("success")
  match extracted_answer r with
  | some a =>
    if a = "" then not_found_outcome task_completed conversation.length
    else verdict_outcome task_completed a
  | none => not_found_outcome task_completed conversation.length

end EightPuzzle

/-- Balanced-brace matcher for the regex
`\x7b[^\x7b\x7d]*(?:\x7b[^\x7b\x7d]*\x7d[^\x7b\x7d]*)*\x7d`: starting just
after an opening brace, consume up to the first top-level closing brace,
allowing one level of complete inner brace groups; a second nested
opening brace aborts the match.  Returns the matched text (reversed
accumulator completed) and the rest. -/
def braceGo : Bool → List Char → List Char → Option (List Char × List Char)
  | _, _, [] => none
  | inner, acc, '{' :: t => if inner then none else braceGo true ('{' :: acc) t
  | inner, acc, '}' :: t =>
    if inner then braceGo false ('}' :: acc) t
    else some (('}' :: acc).reverse, t)
  | inner, acc, c :: t => braceGo inner (c :: acc) t

/-- `re.findall` of the balanced-brace pattern: scan left to right,
emitting non-overlapping matches; a failed attempt restarts one
character later. -/
def braceFindAllAux : Nat → List Char → List (List Char)
  | 0, _ => []
  | _ + 1, [] => []
  | fuel + 1, '{' :: t =>
    (match braceGo false ['{'] t with
     | some (m, rest) => m :: braceFindAllAux fuel rest
     | none => braceFindAllAux fuel t)
  | fuel + 1, _ :: t => braceFindAllAux fuel t

/-- All balanced-brace candidate substrings of a text, leftmost first. -/
def braceFindAll (s : List Char) : List (List Char) :=
  braceFindAllAux (s.length + 1) s

/-- The closing part `\s*(three backticks)` of the fenced-block regex:
skip maximal whitespace, then require the fence. -/
def cbClose (s : List Char) : Bool :=
  (("```").data).isPrefixOf (s.dropWhile isPySpace)

/-- Lazy group `(\x7b.*?\x7d)` of the fenced-block regex: accumulate until
the first closing brace whose tail matches `\s*(three backticks)`. -/
def cbBody : List Char → List Char → Option (List Char)
  | _, [] => none
  | acc, '}' :: t =>
    if cbClose t then some (('}' :: acc).reverse) else cbBody ('}' :: acc) t
  | acc, c :: t => cbBody (c :: acc) t

/-- After the fence (and optional `json` tag): skip whitespace, require an
opening brace, then match the lazy body. -/
def cbTryFrom (u : List Char) : Option (List Char) :=
  match u.dropWhile isPySpace with
  | '{' :: t => cbBody ['{'] t
  | _ => none

/-- `re.search` of the fenced-block pattern
(three backticks)`(?:json)?\s*(\x7b.*?\x7d)\s*`(three backticks): try
every start position left to right; at a fence first try consuming the
greedy optional `json` tag, then backtrack to the tagless alternative. -/
def cbScan : List Char → Option (List Char)
  | [] => none
  | c :: t =>
    if (("```").data).isPrefixOf (c :: t) then
      let r3 := (c :: t).drop 3
      match (if (("json").data).isPrefixOf r3 then cbTryFrom (r3.drop 4) else none) with
      | some b => some b
      | none =>
        match cbTryFrom r3 with
        | some b => some b
        | none => cbScan t
    else cbScan t

namespace LinearRegime

/-- Ground truth regime count of the linear-regime task. -/
def EXPECTED_REGIME_COUNT : Int := 3

/-- Ground truth breakpoint dates of the linear-regime task. -/
def EXPECTED_BREAKPOINTS : List String := [("2024-07-27"), ("2025-02-16")]

/-- Breakpoint tolerance in days. -/
def TOLERANCE_DAYS : Int := 7

/-- A `datetime` produced by `strptime(_, "%Y-%m-%d")` (midnight). -/
structure PyDate where
  y : Nat
  m : Nat
  d : Nat
deriving DecidableEq

/-- Gregorian leap-year test. -/
def isLeap (y : Nat) : Bool :=
  y % 4 == 0 && (y % 100 != 0 || y % 400 == 0)

/-- Length of a month. -/
def monthDays (y m : Nat) : Nat :=
  match m with
  | 1 => 31 | 2 => if isLeap y then 29 else 28 | 3 => 31 | 4 => 30
  | 5 => 31 | 6 => 30 | 7 => 31 | 8 => 31 | 9 => 30 | 10 => 31
  | 11 => 30 | 12 => 31 | _ => 0

/-- Days in the months strictly before month `m` of year `y`. -/
def daysBeforeMonth (y m : Nat) : Nat :=
  (List.range (m - 1)).foldl (fun a i => a + monthDays y (i + 1)) 0

/-- Proleptic-Gregorian ordinal of a date, as used by `datetime`
subtraction: `(d1 - d2).days = ord d1 - ord d2` for midnight datetimes. -/
def dateOrd (dt : PyDate) : Int :=
  let py := dt.y - 1
  ((365 * py + py / 4 + py / 400 + daysBeforeMonth dt.y dt.m + dt.d : Nat) : Int)
    - ((py / 100 : Nat) : Int)

/-- `strftime("%Y-%m-%d")`: zero-padded components. -/
def strftimeYMD (dt : PyDate) : String :=
  let pad := fun (n w : Nat) =>
    let s := toString n
    String.mk (List.replicate (w - s.length) '0') ++ s
  pad dt.y 4 ++ "-" ++ pad dt.m 2 ++ "-" ++ pad dt.d 2

/-- One digit run of length 1-2 with its value, as accepted by the
`strptime` patterns for `%m` / `%d`, followed by the rest. -/
def digitRun (l : List Char) : Option (Nat × Nat × List Char) :=
  let ds := l.takeWhile Char.isDigit
  if ds.length = 1 || ds.length = 2 then
    some (digitsToNat ds, ds.length, l.drop ds.length)
  else none

/-- `datetime.strptime(s, "%Y-%m-%d")` on an already-stripped string:
exactly four year digits, dashes, 1-2 digit month in 1..12, 1-2 digit
day in 1..31, whole string consumed, then calendar validation (month
length; `datetime.MINYEAR = 1`). -/
def strptimeYMD (l : List Char) : Option PyDate :=
  match l with
  | y1 :: y2 :: y3 :: y4 :: '-' :: rest =>
    if y1.isDigit && y2.isDigit && y3.isDigit && y4.isDigit then
      let y := digitsToNat [y1, y2, y3, y4]
      match digitRun rest with
      | some (mv, _, '-' :: rest2) =>
        (match digitRun rest2 with
         | some (dv, _, []) =>
           if 1 ≤ mv && mv ≤ 12 && 1 ≤ dv && dv ≤ 31 && 1 ≤ y && dv ≤ monthDays y mv
           then some ⟨y, mv, dv⟩ else none
         | _ => none)
      | _ => none
    else none
  | _ => none

/-- `_parse_date` on a string: strip, `strptime`, and on failure a
`ValueError` carrying the formatted message. -/
def parse_date (s : String) : Except PyErr PyDate :=
  match strptimeYMD (pyStripL s.data) with
  | some d => .ok d
  | none => .error (.valueError ("Invalid date format: " ++ s ++ ". Expected YYYY-MM-DD"))

/-- `_parse_date` applied to an arbitrary JSON value, as the breakpoint
loop does: a non-string has no `.strip` attribute, so Python raises an
uncaught `AttributeError` before any `ValueError` handling. -/
def parse_date_obj (v : JVal) : Except PyErr PyDate :=
  match v with
  | .jstr s => parse_date s
  | _ => .error .attributeError

/-- Absolute day difference `abs((date1 - date2).days)`. -/
def deltaDays (d1 d2 : PyDate) : Int :=
  ((dateOrd d1 - dateOrd d2).natAbs : Int)

/-- `_dates_within_tolerance`. -/
def dates_within_tolerance (d1 d2 : PyDate) (tolerance_days : Int) : Bool :=
  decide (deltaDays d1 d2 ≤ tolerance_days)

/-- Python's stable `sort()` on datetimes (keys are injective here, so
any order-correct sort agrees with it); insertion keeps later equal
elements after earlier ones. -/
def insertDate (x : PyDate) : List PyDate → List PyDate
  | [] => [x]
  | y :: t => if dateOrd y ≤ dateOrd x then y :: insertDate x t else x :: y :: t

/-- Ascending sort of a date list. -/
def sortDates : List PyDate → List PyDate
  | [] => []
  | x :: t => insertDate x (sortDates t)

/-- The expected breakpoints parsed as dates
(`[_parse_date(bp) for bp in EXPECTED_BREAKPOINTS]`). -/
def expected_dates_parsed : Except PyErr (List PyDate) :=
  EXPECTED_BREAKPOINTS.mapM parse_date

/-- One line of the per-pair mismatch diagnostics. -/
def mismatch_line (p : PyDate × PyDate) : String :=
  "Expected " ++ strftimeYMD p.1 ++ ", got " ++ strftimeYMD p.2
    ++ " (delta: " ++ toString (deltaDays p.1 p.2) ++ " days)"

/-- The breakpoint-validation block of `test`: count check first, then
(inside `try`) parsing, sorting, positional pairing against tolerance,
and diagnostics only for exceeding pairs; a `ValueError` is caught and
reported, any other exception propagates. -/
def check_breakpoints (bl : List JVal) : Except PyErr (Bool × String) :=
  if bl.length ≠ EXPECTED_BREAKPOINTS.length then
    .ok (false, "Expected " ++ toString EXPECTED_BREAKPOINTS.length
      ++ " breakpoints, got " ++ toString bl.length ++ ".")
  else
    match expected_dates_parsed with
    | .error (.valueError m) => .ok (false, "Error parsing breakpoint dates: " ++ m)
    | .error .attributeError => .error .attributeError
    | .ok expected_dates =>
      match bl.mapM parse_date_obj with
      | .error (.valueError m) => .ok (false, "Error parsing breakpoint dates: " ++ m)
      | .error .attributeError => .error .attributeError
      | .ok output_dates =>
        let expS := sortDates expected_dates
        let outS := sortDates output_dates
        let all_within_tolerance :=
          (expS.zip outS).all (fun p => dates_within_tolerance p.1 p.2 TOLERANCE_DAYS)
        if all_within_tolerance then
          .ok (true, "✓ All breakpoints are within ±7 day tolerance.")
        else
          let mismatches :=
            ((expS.zip outS).filter
              (fun p => decide (TOLERANCE_DAYS < deltaDays p.1 p.2))).map mismatch_line
          .ok (false, "✗ Breakpoint mismatches:\n" ++ String.intercalate "\n" mismatches)

end LinearRegime

mutual

/-- Computable structural size of a JSON value, used as recursion fuel
for the serializer. -/
def jsize : JVal → Nat
  | .jnull => 1
  | .jbool _ => 1
  | .jint _ => 1
  | .jnum _ _ _ _ => 1
  | .jstr _ => 1
  | .jarr es => 1 + jsizeL es
  | .jobj fs => 1 + jsizeF fs

/-- Size of a list of JSON values. -/
def jsizeL : List JVal → Nat
  | [] => 0
  | v :: t => 1 + jsize v + jsizeL t

/-- Size of a list of JSON object members. -/
def jsizeF : List (String × JVal) → Nat
  | [] => 0
  | (_, v) :: t => 1 + jsize v + jsizeF t

end

namespace LinearRegime

/-- JSON string escaping of `json.dumps` (`ensure_ascii=True`):
quote/backslash/control escapes, `\uXXXX` for the rest. -/
def dumpsEscape (s : String) : String :=
  let hex := fun (n : Nat) =>
    let hx := Nat.toDigits 16 n
    String.mk (List.replicate (4 - hx.length) '0' ++ hx)
  String.join (s.data.map (fun c =>
    if c == '\"' then "\\\""
    else if c == '\\' then "\\\\"
    else if c == '\n' then "\\n"
    else if c == '\r' then "\\r"
    else if c == '\t' then "\\t"
    else if c == '\x08' then "\\b"
    else if c == '\x0c' then "\\f"
    else if c.toNat < 32 || c.toNat > 126 then "\\u" ++ hex c.toNat
    else String.mk [c]))

/-- `json.dumps(v, indent=2)`; `fuel` bounds the structural recursion and
is instantiated with `jsize v`.  Non-integral number formatting is an
approximation of Python float `repr` (unused by the tasks' payloads). -/
def dumpsGo : Nat → Nat → JVal → String
  | 0, _, _ => ""
  | _ + 1, _, .jnull => "null"
  | _ + 1, _, .jbool b => if b then "true" else "false"
  | _ + 1, _, .jint n => toString n
  | _ + 1, _, .jnum neg ip frac ex =>
    (if neg then "-" else "") ++ toString ip ++ "."
      ++ (if frac.isEmpty then "0" else String.mk (frac.map (fun d => Char.ofNat ('0'.toNat + d))))
      ++ (if ex == 0 then "" else "e" ++ toString ex)
  | _ + 1, _, .jstr s => "\"" ++ dumpsEscape s ++ "\""
  | _ + 1, _, .jarr [] => "[]"
  | fuel + 1, ind, .jarr es =>
    "[\n" ++ String.intercalate ",\n"
        (es.map (fun e => String.mk (List.replicate (ind + 2) ' ') ++ dumpsGo fuel (ind + 2) e))
      ++ "\n" ++ String.mk (List.replicate ind ' ') ++ "]"
  | _ + 1, _, .jobj [] => "\x7b\x7d"
  | fuel + 1, ind, .jobj fs =>
    "\x7b\n" ++ String.intercalate ",\n"
        (fs.map (fun kv => String.mk (List.replicate (ind + 2) ' ')
          ++ "\"" ++ dumpsEscape kv.1 ++ "\": " ++ dumpsGo fuel (ind + 2) kv.2))
      ++ "\n" ++ String.mk (List.replicate ind ' ') ++ "\x7d"

/-- `json.dumps(v, indent=2)`. -/
def json_dumps_indent2 (v : JVal) : String := dumpsGo (jsize v) 0 v

/-- `str()` of a value known to satisfy `isinstance(x, int)` (which in
Python includes `bool`). -/
def pyStrInt : JVal → String
  | .jint n => toString n
  | .jbool b => if b then "True" else "False"
  | _ => ""

/-- `isinstance(x, int)`: `bool` is a subclass of `int`. -/
def pyIsInt : JVal → Bool
  | .jint _ => true
  | .jbool _ => true
  | _ => false

/-- Python `x == n` for an `isinstance(x, int)` value against an int
literal (`True == 1`, `False == 0`). -/
def pyIntEq (v : JVal) (n : Int) : Bool :=
  match v with
  | .jint m => m == n
  | .jbool b => (if b then (1 : Int) else 0) == n
  | _ => false

/-- `_extract_json_from_text`: first the fenced-block pattern (only its
first match is tried, a parse failure falls through), then the
balanced-brace candidates left to right, first successful parse wins. -/
def extract_json_from_text (text : String) : Option JVal :=
  let fromBlocks : Option JVal :=
    match cbScan text.data with
    | some body => jsonLoads (String.mk body)
    | none => none
  match fromBlocks with
  | some v => some v
  | none => (braceFindAll text.data).findSome? (fun cand => jsonLoads (String.mk cand))

/-- `_extract_json_from_conversation`. -/
def extract_json_from_conversation (conv : List Message) : Option JVal :=
  scanConversation extract_json_from_text pyTruthy conv

/-- The "no valid JSON found" outcome of `test`. -/
def not_found_outcome (task_completed : Bool) (convLen : Nat) : TestOutcome :=
  { passed := false
    feedback := "No valid JSON object found in assistant responses."
    details := [(("task_completed"), .jbool task_completed),
                (("conversation_length"), .jint (convLen : Int))] }

/-- An early schema-failure outcome of `test` (missing field or type
mismatch): `passed=false`, the given feedback, and details carrying only
the completion flag and the extracted payload. -/
def schema_fail_outcome (task_completed : Bool) (feedback : String) (output_json : JVal) :
    TestOutcome :=
  { passed := false
    feedback := feedback
    details := [(("task_completed"), .jbool task_completed),
                (("output_json"), output_json)] }

/-- The outcome of `test` once the payload passed the schema checks. -/
def verdict_outcome (task_completed : Bool) (output_json : JVal) (regime_count : JVal)
    (regime_count_correct breakpoints_correct : Bool) (breakpoint_feedback : String) :
    TestOutcome :=
  let passed := task_completed && regime_count_correct && breakpoints_correct
  { passed := passed
    feedback := String.intercalate "\n"
      ([("Found JSON output: " ++ json_dumps_indent2 output_json),
        ((if regime_count_correct then "✓" else "✗") ++ " Regime count: got "
          ++ pyStrInt regime_count ++ ", expected " ++ toString EXPECTED_REGIME_COUNT ++ "."),
        breakpoint_feedback]
        ++ (if task_completed then [] else [("✗ Task status is not success.")]))
    details := [(("task_completed"), .jbool task_completed),
                (("output_json"), output_json),
                (("regime_count_correct"), .jbool regime_count_correct),
                (("breakpoints_correct"), .jbool breakpoints_correct),
                (("expected_regime_count"), .jint EXPECTED_REGIME_COUNT),
                (("expected_breakpoints"), .jarr (EXPECTED_BREAKPOINTS.map JVal.jstr)),
                (("tolerance_days"), .jint TOLERANCE_DAYS)] }

/-- The source-precedence extraction pipeline inside `test`: a truthy
`task_result` is tried first; if its extraction is falsy, fall back to
the conversation. -/
def extracted_json (r : ResultRecord) : Option JVal :=
  let conversation := r.conversation.getD []
  let oj1 : Option JVal := match r.task_result with
    | some t => if t = "" then none else extract_json_from_text t
    | none => none
  match oj1 with
  | some v => if pyTruthy v then some v else extract_json_from_conversation conversation
  | none => extract_json_from_conversation conversation

/-- `test` of the linear-regime task.  The result is wrapped in `Except`
because the breakpoint loop can raise an uncaught `AttributeError`. -/
def test (r : ResultRecord) : Except PyErr TestOutcome :=
  let conversation := r.conversation.getD []
  let task_completed := r.status == some ("success")
  match extracted_json r with
  | none => .ok (not_found_outcome task_completed conversation.length)
  | some obj =>
    if ¬ pyTruthy obj then .ok (not_found_outcome task_completed conversation.length)
    else
      match obj with
      | .jobj fields =>
        if ¬ jHasKey fields ("regime_count") then
          .ok (schema_fail_outcome task_completed
            ("JSON output missing \x27regime_count\x27 field.") (.jobj fields))
        else if ¬ jHasKey fields ("breakpoints") then
          .ok (schema_fail_outcome task_completed
            ("JSON output missing \x27breakpoints\x27 field.") (.jobj fields))
        else
          let regime_count := (jGet fields ("regime_count")).getD .jnull
          let breakpoints := (jGet fields ("breakpoints")).getD (.jarr [])
          if ¬ pyIsInt regime_count then
            .ok (schema_fail_outcome task_completed
              ("regime_count must be an integer, got " ++ pyTypeName regime_count ++ ".")
              (.jobj fields))
          else
            match breakpoints with
            | .jarr bl =>
              let regime_count_correct := pyIntEq regime_count EXPECTED_REGIME_COUNT
              (match check_breakpoints bl with
               | .error e => .error e
               | .ok (breakpoints_correct, breakpoint_feedback) =>
                 .ok (verdict_outcome task_completed (.jobj fields) regime_count
                   regime_count_correct breakpoints_correct breakpoint_feedback))
            | bv =>
              .ok (schema_fail_outcome task_completed
                ("breakpoints must be a list, got " ++ pyTypeName bv ++ ".") (.jobj fields))
      | v =>
        -- A truthy non-dict never reaches this point: both extractors only
        -- return parsed brace-delimited objects.  Mirror the realistic
        -- membership-failure path of `"regime_count" not in output_json`.
        .ok (schema_fail_outcome task_completed
          ("JSON output missing \x27regime_count\x27 field.") v)

end LinearRegime

/-- Modelled from the spec (§4.1, the claim's reading): a single
newest-to-oldest traversal that, within each assistant message, first
tries the `task_complete` tool-call payload and then that same message's
content, before moving to the next older message.  Used only to compare
the claimed scan order with the implemented one. -/
def spec_interleaved_scan (conv : List Message) : Option String :=
  conv.reverse.findSome? (fun m =>
    match msgToolResult EightPuzzle.extract_answer_from_text (fun s => s != "") m with
    | some a => some a
    | none => msgContentResult EightPuzzle.extract_answer_from_text (fun s => s != "") m)

/-- Older assistant message carrying the payload `OLD` in a
`task_complete` tool-call result. -/
def c1_msg_old : Message :=
  .mk (some ("assistant")) none
    (some [ToolCall.mk (some ⟨some ("task_complete"),
      some (.astr ("\x7b\"result\": \"<answer>OLD</answer>\"\x7d"))⟩)])

/-- Newer assistant message carrying the payload `NEW` in its content. -/
def c1_msg_new : Message :=
  .mk (some ("assistant")) (some ("<answer>NEW</answer>")) none

/-- A two-message conversation, oldest first: tool-call payload `OLD`
in the older message, content payload `NEW` in the newer one. -/
def c1_conv : List Message := [c1_msg_old, c1_msg_new]

/-- Whether an `Except` computation returned normally. -/
def exceptIsOk {ε α : Type} : Except ε α → Bool
  | .ok _ => true
  | .error _ => false

/-- Input record whose JSON payload is schema-valid but has integer
breakpoint elements: reaching `_parse_date` on an `int` raises an
uncaught `AttributeError` in the Python source. -/
def c3_failing_record : ResultRecord :=
  ⟨some ("success"), none,
   some ("\x7b\"regime_count\": 3, \"breakpoints\": [1, 2]\x7d")⟩

/-- Input record with a malformed breakpoint *string*: here the raised
`ValueError` is caught and turned into a typed failure outcome. -/
def c3_caught_record : ResultRecord :=
  ⟨some ("success"), none,
   some ("\x7b\"regime_count\": 3, \"breakpoints\": [\"bad\", \"2024-07-25\"]\x7d")⟩

/-- The breakpoint list of the spec's tolerant-set scenario. -/
def c4_bl : List JVal := [(.jstr ("2025-02-20")), (.jstr ("2024-07-25"))]

/-- The scenario's actual dates, parsed. -/
def c4_ds : List LinearRegime.PyDate := [⟨2025, 2, 20⟩, ⟨2024, 7, 25⟩]

/-- The expected breakpoints, parsed. -/
def c4_es : List LinearRegime.PyDate := [⟨2024, 7, 27⟩, ⟨2025, 2, 16⟩]

/-- A conversation holding the correct answer in an assistant message's
content, used to show that a failed validation of a higher-precedence
payload does not fall back to it. -/
def c9_conv : List Message :=
  [Message.mk (some ("assistant")) (some ("<answer>EFPTGK</answer>")) none]

/-- A conversation holding a complete, correct JSON payload in an
assistant message's content, used to show that a schema-invalid
higher-precedence payload does not fall back to it. -/
def c9_linear_conv : List Message :=
  [Message.mk (some ("assistant"))
    (some ("\x7b\"regime_count\": 3, \"breakpoints\": [\"2024-07-27\", \"2025-02-16\"]\x7d"))
    none]

/-- A details entry of a normally returned outcome. -/
def exceptOutcomeDetail (k : String) : Except PyErr TestOutcome → Option JVal
  | .ok o => o.details.lookup k
  | .error _ => none

/-- The `passed` flag of a normally returned outcome. -/
def exceptPassed : Except PyErr TestOutcome → Option Bool
  | .ok o => some o.passed
  | .error _ => none

/-- A record with a correct breakpoint list but a wrong regime count:
completion succeeds, one field validation fails. -/
def c7_linear_record : ResultRecord :=
  ⟨some ("success"), none,
   some ("\x7b\"regime_count\": 2, \"breakpoints\": [\"2024-07-27\", \"2025-02-16\"]\x7d")⟩

/-- The parsed payload of `c7_linear_record`. -/
def c7_fields : List (String × JVal) :=
  [(("regime_count"), .jint 2),
   (("breakpoints"), .jarr [(.jstr ("2024-07-27")), (.jstr ("2025-02-16"))])]

/-- A record whose payload reaches field validation and fails it
(wrong regime count and wrong breakpoint count). -/
def c8_fail_record : ResultRecord :=
  ⟨some ("success"), none,
   some ("\x7b\"regime_count\": 2, \"breakpoints\": [\"2024-01-01\"]\x7d")⟩

/-- The parsed payload of `c8_fail_record`. -/
def c8_fields : List (String × JVal) :=
  [(("regime_count"), .jint 2), (("breakpoints"), .jarr [(.jstr ("2024-01-01"))])]

/-- `List.findSome?` distributes over append, first list first. -/
theorem findSome_append {α β : Type} (f : α → Option β) (l1 l2 : List α) :
    (l1 ++ l2).findSome? f =
      (match l1.findSome? f with
       | some b => some b
       | none => l2.findSome? f) := by
  induction l1 with
  | nil => simp [List.findSome?]
  | cons a t ih =>
    simp only [List.cons_append, List.findSome?]
    cases f a <;> simp [ih]

/-- `List.findSome?` is `none` when the function is `none` on every
element. -/
theorem findSome_eq_none {α β : Type} (f : α → Option β) (l : List α)
    (h : ∀ a ∈ l, f a = none) : l.findSome? f = none := by
  induction l with
  | nil => rfl
  | cons a t ih =>
    simp only [List.findSome?, h a (by simp)]
    exact ih (fun x hx => h x (by simp [hx]))

/-- A truthy `task_result` whose extraction is truthy decides the
pipeline's answer, whatever the conversation holds. -/
theorem extracted_answer_direct (status : Option String) (conv : Option (List Message))
    (tr a : String) (htr : tr ≠ "")
    (hex : EightPuzzle.extract_answer_from_text tr = some a) (ha : a ≠ "") :
    EightPuzzle.extracted_answer ⟨status, conv, some tr⟩ = some a := by
  simp [EightPuzzle.extracted_answer, htr, hex, ha]

/-- Once the pipeline extracted a truthy answer, `test` returns the
verdict outcome for it. -/
theorem puzzle_test_verdict (r : ResultRecord) (a : String)
    (h : EightPuzzle.extracted_answer r = some a) (ha : a ≠ "") :
    EightPuzzle.test r = EightPuzzle.verdict_outcome (r.status == some ("success")) a := by
  simp [EightPuzzle.test, h, ha]

/-- C1 (counterexample): on a conversation whose older assistant message
holds payload `OLD` in a `task_complete` tool-call result and whose
newer assistant message holds payload `NEW` in its content, the
spec-claimed interleaved scan would answer `NEW`, but the implemented
scanner answers `OLD` — a newer content payload is not preferred to an
older tool-call payload. -/
theorem c1_counterexample :
    spec_interleaved_scan c1_conv = some ("NEW") ∧
    EightPuzzle.extract_answer_from_conversation c1_conv = some ("OLD") ∧
    (("NEW") : String) ≠ ("OLD") :=
  ⟨rfl, rfl, by decide⟩

/-- C1 (amended): the scanner makes two full passes over the transcript,
newest message first.  The first pass looks only at `task_complete`
tool-call payloads: whenever a message `m` yields one and every message
newer than `m` yields none from its tool calls, `m`'s payload is the
scanner's answer — content payloads anywhere (even in newer messages)
are irrelevant.  Only when the tool-call pass finds nothing on the whole
transcript does the scanner run a second newest-first pass over message
contents. -/
theorem c1_two_pass_scan :
    (∀ (older newer : List Message) (m : Message) (a : String),
        msgToolResult EightPuzzle.extract_answer_from_text (fun s => s != "") m = some a →
        (∀ m2 ∈ newer,
          msgToolResult EightPuzzle.extract_answer_from_text (fun s => s != "") m2 = none) →
        EightPuzzle.extract_answer_from_conversation (older ++ m :: newer) = some a) ∧
    (∀ conv : List Message,
        (∀ m2 ∈ conv,
          msgToolResult EightPuzzle.extract_answer_from_text (fun s => s != "") m2 = none) →
        EightPuzzle.extract_answer_from_conversation conv =
          conv.reverse.findSome?
            (msgContentResult EightPuzzle.extract_answer_from_text (fun s => s != ""))) := by
  constructor
  · intro older newer m a hm hnewer
    unfold EightPuzzle.extract_answer_from_conversation scanConversation
    rw [List.reverse_append, List.reverse_cons, findSome_append, findSome_append]
    rw [findSome_eq_none _ _ (fun x hx => hnewer x (List.mem_reverse.mp hx))]
    simp [List.findSome?, hm]
  · intro conv hconv
    unfold EightPuzzle.extract_answer_from_conversation scanConversation
    rw [findSome_eq_none _ _ (fun x hx => hconv x (List.mem_reverse.mp hx))]

/-- C1 (witness): instantiating the amended theorem on the concrete
conversation: the older tool-call payload `OLD` wins. -/
theorem c1_witness :
    EightPuzzle.extract_answer_from_conversation ([] ++ c1_msg_old :: [c1_msg_new]) =
      some ("OLD") :=
  c1_two_pass_scan.1 [] [c1_msg_new] c1_msg_old ("OLD") (by rfl) (by decide)

/-- C2: when `task_result` is truthy and a truthy payload is extractable
from it, the outcome does not depend on the conversation at all, and the
direct-result payload is the one recorded in the details — even if the
conversation holds a different extractable payload. -/
theorem c2_direct_result_wins :
    ∀ (status : Option String) (conv conv' : Option (List Message)) (tr a : String),
      tr ≠ "" → EightPuzzle.extract_answer_from_text tr = some a → a ≠ "" →
      EightPuzzle.test ⟨status, conv, some tr⟩ = EightPuzzle.test ⟨status, conv', some tr⟩ ∧
      (EightPuzzle.test ⟨status, conv, some tr⟩).details.lookup ("output_answer") =
        some (.jstr a) := by
  intro status conv conv' tr a htr hex ha
  have h1 := puzzle_test_verdict ⟨status, conv, some tr⟩ a
    (extracted_answer_direct status conv tr a htr hex ha) ha
  have h2 := puzzle_test_verdict ⟨status, conv', some tr⟩ a
    (extracted_answer_direct status conv' tr a htr hex ha) ha
  constructor
  · rw [h1, h2]
  · rw [h1]; rfl

/-- C2 (witness): with direct result `AAA` and a conversation holding a
different (and correct) payload, the direct value wins and the outcome
ignores the conversation. -/
theorem c2_witness :
    EightPuzzle.test ⟨some ("success"), some c9_conv, some ("<answer>AAA</answer>")⟩ =
      EightPuzzle.test ⟨some ("success"), none, some ("<answer>AAA</answer>")⟩ ∧
    (EightPuzzle.test ⟨some ("success"), some c9_conv, some ("<answer>AAA</answer>")⟩).details.lookup
        ("output_answer") = some (.jstr ("AAA")) :=
  c2_direct_result_wins (some ("success")) (some c9_conv) none ("<answer>AAA</answer>")
    ("AAA") (by decide) (by decide) (by decide)

/-- C3: evaluation is not total.  On a record whose JSON payload is
schema-valid but carries integer breakpoint elements, the breakpoint
loop reaches `_parse_date` on an `int`; `.strip()` raises an
`AttributeError` that no handler catches, so the evaluator crashes
instead of returning an outcome record.  A malformed breakpoint
*string*, by contrast, raises a `ValueError` that is caught and mapped
to a typed failure outcome. -/
theorem c3_uncaught_attribute_error :
    LinearRegime.test c3_failing_record = .error PyErr.attributeError ∧
    exceptIsOk (LinearRegime.test c3_caught_record) = true :=
  ⟨rfl, rfl⟩

/-- C5: whenever the breakpoint count differs from the expected count,
validation fails immediately with the count-mismatch diagnostic; the
result depends only on the length, so no element is ever parsed. -/
theorem c5_count_mismatch :
    ∀ bl : List JVal, bl.length ≠ LinearRegime.EXPECTED_BREAKPOINTS.length →
      LinearRegime.check_breakpoints bl =
        .ok (false, ("Expected 2 breakpoints, got " ++ toString bl.length ++ ".")) := by
  intro bl h
  unfold LinearRegime.check_breakpoints
  rw [if_pos h]
  rfl

/-- C5 (witness): a single *integer* breakpoint — which would crash the
date parser if it were ever parsed — still yields the pure
count-mismatch failure. -/
theorem c5_witness :
    LinearRegime.check_breakpoints [(.jint 5)] =
      .ok (false, ("Expected 2 breakpoints, got 1.")) :=
  c5_count_mismatch [(.jint 5)] (by decide)

/-- C6: tag extraction and normalization are case- and
whitespace-insensitive — `<answer> efptgk </answer>` and
`<ANSWER>EFPTGK</ANSWER>` both normalize to `EFPTGK` — and a lowercase
extracted answer passes against the uppercase expected answer when the
status is `success`. -/
theorem c6_case_whitespace_insensitive :
    (EightPuzzle.extract_answer_from_text ("<answer> efptgk </answer>")).map
        EightPuzzle.normalize_answer = some ("EFPTGK") ∧
    (EightPuzzle.extract_answer_from_text ("<ANSWER>EFPTGK</ANSWER>")).map
        EightPuzzle.normalize_answer = some ("EFPTGK") ∧
    (EightPuzzle.test ⟨some ("success"), none, some ("<answer>efptgk</answer>")⟩).passed =
      true :=
  ⟨rfl, rfl, rfl⟩

/-- C4: on a breakpoint list of the expected length whose elements (and
the expected constants) all parse as dates, validation sorts both
sequences, pairs them positionally, and passes exactly when every pair's
absolute day difference is at most 7; mismatch diagnostics list exactly
the pairs exceeding the tolerance. -/
theorem c4_tolerant_date_validation :
    ∀ (bl : List JVal) (es ds : List LinearRegime.PyDate),
      bl.length = LinearRegime.EXPECTED_BREAKPOINTS.length →
      LinearRegime.expected_dates_parsed = .ok es →
      bl.mapM LinearRegime.parse_date_obj = .ok ds →
      LinearRegime.check_breakpoints bl = .ok
        (decide (∀ p ∈ (LinearRegime.sortDates es).zip (LinearRegime.sortDates ds),
            LinearRegime.deltaDays p.1 p.2 ≤ 7),
         if ∀ p ∈ (LinearRegime.sortDates es).zip (LinearRegime.sortDates ds),
              LinearRegime.deltaDays p.1 p.2 ≤ 7
         then ("✓ All breakpoints are within ±7 day tolerance.")
         else ("✗ Breakpoint mismatches:\n" ++ String.intercalate "\n"
           ((((LinearRegime.sortDates es).zip (LinearRegime.sortDates ds)).filter
              (fun p => decide ((7 : Int) < LinearRegime.deltaDays p.1 p.2))).map
             LinearRegime.mismatch_line))) := by
  intro bl es ds hlen hes hds
  unfold LinearRegime.check_breakpoints
  rw [if_neg (fun hne => hne hlen), hes, hds]
  dsimp only
  by_cases hp : ∀ p ∈ (LinearRegime.sortDates es).zip (LinearRegime.sortDates ds),
      LinearRegime.deltaDays p.1 p.2 ≤ 7
  · have hall : ((LinearRegime.sortDates es).zip (LinearRegime.sortDates ds)).all
        (fun p => LinearRegime.dates_within_tolerance p.1 p.2 LinearRegime.TOLERANCE_DAYS) =
          true := by
      rw [List.all_eq_true]
      intro p hmem
      simp [LinearRegime.dates_within_tolerance, LinearRegime.TOLERANCE_DAYS, hp p hmem]
    rw [if_pos hall, if_pos hp, decide_eq_true hp]
  · have hall : ((LinearRegime.sortDates es).zip (LinearRegime.sortDates ds)).all
        (fun p => LinearRegime.dates_within_tolerance p.1 p.2 LinearRegime.TOLERANCE_DAYS) =
          false := by
      rw [Bool.eq_false_iff]
      intro hcontra
      rw [List.all_eq_true] at hcontra
      refine hp (fun p hmem => ?_)
      simpa [LinearRegime.dates_within_tolerance, LinearRegime.TOLERANCE_DAYS] using
        hcontra p hmem
    rw [if_neg (by simp [hall]), if_neg hp, decide_eq_false hp]
    rfl

/-- C4 (witness): the spec's tolerant-set scenario — expected
2024-07-27 / 2025-02-16, actual 2025-02-20 / 2024-07-25 — has sorted
pair deltas 2 and 4 days and passes. -/
theorem c4_witness :
    LinearRegime.check_breakpoints c4_bl =
      .ok (true, ("✓ All breakpoints are within ±7 day tolerance.")) ∧
    ((LinearRegime.sortDates c4_es).zip (LinearRegime.sortDates c4_ds)).map
        (fun p => LinearRegime.deltaDays p.1 p.2) = [2, 4] := by
  have h := c4_tolerant_date_validation c4_bl c4_es c4_ds (by decide) (by rfl) (by rfl)
  exact ⟨h.trans (by rfl), by rfl⟩

/-- Every outcome of the eight-puzzle `test` is either the not-found
outcome or the verdict outcome for some extracted answer, with the
completion flag derived from `status == "success"`. -/
theorem puzzle_test_cases (r : ResultRecord) :
    (∃ n, EightPuzzle.test r =
      EightPuzzle.not_found_outcome (r.status == some ("success")) n) ∨
    (∃ a, EightPuzzle.test r =
      EightPuzzle.verdict_outcome (r.status == some ("success")) a) := by
  unfold EightPuzzle.test
  cases h : EightPuzzle.extracted_answer r with
  | none => exact Or.inl ⟨_, rfl⟩
  | some a =>
    by_cases ha : a = ""
    · simp only [ha, if_pos rfl]
      exact Or.inl ⟨_, rfl⟩
    · simp only [if_neg ha]
      exact Or.inr ⟨a, rfl⟩

/-- Every normal return of the linear-regime `test` is the not-found
outcome, a schema-failure outcome, or the verdict outcome, with the
completion flag derived from `status == "success"`. -/
theorem linear_test_ok_cases (r : ResultRecord) (o : TestOutcome)
    (h : LinearRegime.test r = .ok o) :
    (∃ n, o = LinearRegime.not_found_outcome (r.status == some ("success")) n) ∨
    (∃ fb pj, o = LinearRegime.schema_fail_outcome (r.status == some ("success")) fb pj) ∨
    (∃ obj rc rcc bc bfb, o =
      LinearRegime.verdict_outcome (r.status == some ("success")) obj rc rcc bc bfb) := by
  unfold LinearRegime.test at h
  dsimp only at h
  split at h
  · exact Or.inl ⟨_, (Except.ok.injEq _ _).mp h |>.symm⟩
  · split at h
    · exact Or.inl ⟨_, (Except.ok.injEq _ _).mp h |>.symm⟩
    · split at h
      · split at h
        · exact Or.inr (Or.inl ⟨_, _, (Except.ok.injEq _ _).mp h |>.symm⟩)
        · split at h
          · exact Or.inr (Or.inl ⟨_, _, (Except.ok.injEq _ _).mp h |>.symm⟩)
          · split at h
            · exact Or.inr (Or.inl ⟨_, _, (Except.ok.injEq _ _).mp h |>.symm⟩)
            · split at h
              · split at h
                · exact absurd h (by simp)
                · exact Or.inr (Or.inr ⟨_, _, _, _, _, (Except.ok.injEq _ _).mp h |>.symm⟩)
              · exact Or.inr (Or.inl ⟨_, _, (Except.ok.injEq _ _).mp h |>.symm⟩)
      · exact Or.inr (Or.inl ⟨_, _, (Except.ok.injEq _ _).mp h |>.symm⟩)

/-- A truthy `task_result` whose JSON extraction is truthy decides the
linear pipeline's payload, whatever the conversation holds. -/
theorem extracted_json_direct (status : Option String) (conv : Option (List Message))
    (tr : String) (v : JVal) (htr : tr ≠ "")
    (hex : LinearRegime.extract_json_from_text tr = some v) (hv : pyTruthy v = true) :
    LinearRegime.extracted_json ⟨status, conv, some tr⟩ = some v := by
  simp [LinearRegime.extracted_json, htr, hex, hv]

/-- Once the linear pipeline extracted a truthy payload that satisfies
every schema check, `test` returns the verdict outcome built from that
payload, the regime-count comparison, and the breakpoint check. -/
theorem linear_test_full_validation (r : ResultRecord) (fields : List (String × JVal))
    (bl : List JVal) (bc : Bool) (bfb : String)
    (hext : LinearRegime.extracted_json r = some (.jobj fields))
    (htr : pyTruthy (.jobj fields) = true)
    (hk1 : jHasKey fields ("regime_count") = true)
    (hk2 : jHasKey fields ("breakpoints") = true)
    (hint : LinearRegime.pyIsInt ((jGet fields ("regime_count")).getD .jnull) = true)
    (hbp : (jGet fields ("breakpoints")).getD (.jarr []) = .jarr bl)
    (hcb : LinearRegime.check_breakpoints bl = .ok (bc, bfb)) :
    LinearRegime.test r = .ok (LinearRegime.verdict_outcome (r.status == some ("success"))
      (.jobj fields) ((jGet fields ("regime_count")).getD .jnull)
      (LinearRegime.pyIntEq ((jGet fields ("regime_count")).getD .jnull)
        LinearRegime.EXPECTED_REGIME_COUNT) bc bfb) := by
  unfold LinearRegime.test
  rw [hext]
  dsimp only
  rw [if_neg (fun hc => hc htr), if_neg (fun hc => hc hk1), if_neg (fun hc => hc hk2),
    if_neg (fun hc => hc hint), hbp]
  dsimp only
  rw [hcb]

/-- Every normal return obtained after a truthy extraction records the
extracted payload — schema failures included — under `output_json`. -/
theorem linear_output_json_recorded (r : ResultRecord) (o : TestOutcome) (v : JVal)
    (hv : LinearRegime.extracted_json r = some v) (ht : pyTruthy v = true)
    (h : LinearRegime.test r = .ok o) :
    o.details.lookup ("output_json") = some v := by
  unfold LinearRegime.test at h
  rw [hv] at h
  dsimp only at h
  rw [if_neg (fun hc => hc ht)] at h
  cases v with
  | jobj fields =>
    dsimp only at h
    split at h
    · exact ((Except.ok.injEq _ _).mp h).symm ▸ rfl
    · split at h
      · exact ((Except.ok.injEq _ _).mp h).symm ▸ rfl
      · split at h
        · exact ((Except.ok.injEq _ _).mp h).symm ▸ rfl
        · split at h
          · split at h
            · exact absurd h (by simp)
            · exact ((Except.ok.injEq _ _).mp h).symm ▸ rfl
          · exact ((Except.ok.injEq _ _).mp h).symm ▸ rfl
  | jnull => dsimp only at h; exact ((Except.ok.injEq _ _).mp h).symm ▸ rfl
  | jbool b => dsimp only at h; exact ((Except.ok.injEq _ _).mp h).symm ▸ rfl
  | jint n => dsimp only at h; exact ((Except.ok.injEq _ _).mp h).symm ▸ rfl
  | jnum neg ip frac ex => dsimp only at h; exact ((Except.ok.injEq _ _).mp h).symm ▸ rfl
  | jstr s => dsimp only at h; exact ((Except.ok.injEq _ _).mp h).symm ▸ rfl
  | jarr es => dsimp only at h; exact ((Except.ok.injEq _ _).mp h).symm ▸ rfl

/-- C7: the verdict composition.  For the eight-puzzle task, once a
truthy payload is extracted, `passed` is exactly the conjunction of the
completion flag (`status` equal to the literal `"success"`) and answer
correctness under normalization; for the linear-regime task, once a
payload reaches full field validation, `passed` is exactly the
conjunction of the completion flag, regime-count correctness and
breakpoint correctness — so completion and payload correctness are
independent in both directions; and any passing linear outcome requires
`status = "success"`. -/
theorem c7_passed_conjunction :
    (∀ (r : ResultRecord) (a : String),
        EightPuzzle.extracted_answer r = some a → a ≠ "" →
        (EightPuzzle.test r).passed =
          ((r.status == some ("success")) &&
            (EightPuzzle.normalize_answer a ==
              EightPuzzle.normalize_answer EightPuzzle.EXPECTED_ANSWER))) ∧
    (∀ (r : ResultRecord) (fields : List (String × JVal)) (bl : List JVal)
        (bc : Bool) (bfb : String),
        LinearRegime.extracted_json r = some (.jobj fields) →
        pyTruthy (.jobj fields) = true →
        jHasKey fields ("regime_count") = true →
        jHasKey fields ("breakpoints") = true →
        LinearRegime.pyIsInt ((jGet fields ("regime_count")).getD .jnull) = true →
        (jGet fields ("breakpoints")).getD (.jarr []) = .jarr bl →
        LinearRegime.check_breakpoints bl = .ok (bc, bfb) →
        ∃ o, LinearRegime.test r = .ok o ∧
          o.passed = ((r.status == some ("success")) &&
            LinearRegime.pyIntEq ((jGet fields ("regime_count")).getD .jnull)
              LinearRegime.EXPECTED_REGIME_COUNT && bc)) ∧
    (∀ (r : ResultRecord) (o : TestOutcome),
        LinearRegime.test r = .ok o → o.passed = true →
        r.status = some ("success")) := by
  refine ⟨?_, ?_, ?_⟩
  · intro r a h ha
    rw [puzzle_test_verdict r a h ha]
    rfl
  · intro r fields bl bc bfb hext htr hk1 hk2 hint hbp hcb
    exact ⟨_, linear_test_full_validation r fields bl bc bfb hext htr hk1 hk2 hint hbp hcb,
      rfl⟩
  · intro r o h hp
    rcases linear_test_ok_cases r o h with ⟨n, rfl⟩ | ⟨fb, pj, rfl⟩ |
      ⟨obj, rc, rcc, bc, bfb, rfl⟩
    · exact absurd hp (by simp [LinearRegime.not_found_outcome])
    · exact absurd hp (by simp [LinearRegime.schema_fail_outcome])
    · have hand : ((r.status == some ("success")) && rcc && bc) = true := hp
      have h1 : (r.status == some ("success")) = true := by
        simp only [Bool.and_eq_true] at hand
        exact hand.1.1
      exact eq_of_beq h1

/-- C7 (witness): a correct payload with a non-success status yields
`passed = false` (puzzle task), and a success-status record whose
payload has a wrong regime count but correct breakpoints also yields
`passed = false` (linear task) — the two factors are independent. -/
theorem c7_witness :
    (EightPuzzle.test ⟨none, none, some ("<answer>efptgk</answer>")⟩).passed = false ∧
    exceptPassed (LinearRegime.test c7_linear_record) = some false := by
  constructor
  · have h := c7_passed_conjunction.1 ⟨none, none, some ("<answer>efptgk</answer>")⟩
      ("efptgk") (by rfl) (by decide)
    exact h.trans (by rfl)
  · obtain ⟨o, ho, hp⟩ := c7_passed_conjunction.2.1 c7_linear_record c7_fields
      [(.jstr ("2024-07-27")), (.jstr ("2025-02-16"))] true
      ("✓ All breakpoints are within ±7 day tolerance.")
      (by rfl) (by rfl) (by rfl) (by rfl) (by rfl) (by rfl) (by rfl)
    have hfalse : o.passed = false := hp.trans (by rfl)
    rw [ho]
    dsimp only [exceptPassed]
    rw [hfalse]

/-- C8 (counterexample): the not-found outcome is a failing outcome
whose details expose only the completion flag and the conversation
length — neither the raw extracted payload, nor the expected reference
value, nor a per-field correctness boolean, contradicting the claim that
every outcome exposes all of them. -/
theorem c8_counterexample :
    (EightPuzzle.test ⟨some ("success"), some [], none⟩).passed = false ∧
    ((EightPuzzle.test ⟨some ("success"), some [], none⟩).details.map Prod.fst) =
      [("task_completed"), ("conversation_length")] ∧
    (EightPuzzle.test ⟨some ("success"), some [], none⟩).details.lookup ("output_answer") =
      none ∧
    (EightPuzzle.test ⟨some ("success"), some [], none⟩).details.lookup ("expected_answer") =
      none ∧
    (EightPuzzle.test ⟨some ("success"), some [], none⟩).details.lookup ("answer_correct") =
      none :=
  ⟨rfl, rfl, rfl, rfl, rfl⟩

/-- C8 (amended): every outcome's details expose the completion flag;
every outcome produced after a truthy extraction additionally records
the raw payload (schema failures included); every outcome that reaches
field validation — passing or failing — further exposes the per-field
correctness booleans, the expected reference values and the tolerance
constants; and these are exhaustive: the not-found outcome carries only
the completion flag and the conversation length, a schema failure only
the completion flag and the payload, and nothing else occurs. -/
theorem c8_details_exposure :
    (∀ r : ResultRecord,
        (EightPuzzle.test r).details.lookup ("task_completed") =
          some (.jbool (r.status == some ("success")))) ∧
    (∀ (r : ResultRecord) (o : TestOutcome), LinearRegime.test r = .ok o →
        o.details.lookup ("task_completed") =
          some (.jbool (r.status == some ("success")))) ∧
    (∀ (r : ResultRecord) (a : String),
        EightPuzzle.extracted_answer r = some a → a ≠ "" →
        (EightPuzzle.test r).details.lookup ("output_answer") = some (.jstr a) ∧
        (EightPuzzle.test r).details.lookup ("expected_answer") =
          some (.jstr EightPuzzle.EXPECTED_ANSWER) ∧
        (EightPuzzle.test r).details.lookup ("answer_correct") =
          some (.jbool (EightPuzzle.normalize_answer a ==
            EightPuzzle.normalize_answer EightPuzzle.EXPECTED_ANSWER))) ∧
    (∀ (r : ResultRecord) (o : TestOutcome) (v : JVal),
        LinearRegime.test r = .ok o →
        LinearRegime.extracted_json r = some v → pyTruthy v = true →
        o.details.lookup ("output_json") = some v) ∧
    (∀ (r : ResultRecord) (fields : List (String × JVal)) (bl : List JVal)
        (bc : Bool) (bfb : String),
        LinearRegime.extracted_json r = some (.jobj fields) →
        pyTruthy (.jobj fields) = true →
        jHasKey fields ("regime_count") = true →
        jHasKey fields ("breakpoints") = true →
        LinearRegime.pyIsInt ((jGet fields ("regime_count")).getD .jnull) = true →
        (jGet fields ("breakpoints")).getD (.jarr []) = .jarr bl →
        LinearRegime.check_breakpoints bl = .ok (bc, bfb) →
        ∃ o, LinearRegime.test r = .ok o ∧
          o.details.lookup ("output_json") = some (.jobj fields) ∧
          o.details.lookup ("regime_count_correct") =
            some (.jbool (LinearRegime.pyIntEq ((jGet fields ("regime_count")).getD .jnull)
              LinearRegime.EXPECTED_REGIME_COUNT)) ∧
          o.details.lookup ("breakpoints_correct") = some (.jbool bc) ∧
          o.details.lookup ("expected_regime_count") =
            some (.jint LinearRegime.EXPECTED_REGIME_COUNT) ∧
          o.details.lookup ("expected_breakpoints") =
            some (.jarr (LinearRegime.EXPECTED_BREAKPOINTS.map JVal.jstr)) ∧
          o.details.lookup ("tolerance_days") = some (.jint LinearRegime.TOLERANCE_DAYS)) ∧
    (∀ r : ResultRecord,
        (EightPuzzle.test r).details.map Prod.fst =
            [("task_completed"), ("conversation_length")] ∨
        (EightPuzzle.test r).details.map Prod.fst =
            [("task_completed"), ("output_answer"), ("answer_correct"),
             ("expected_answer")]) ∧
    (∀ (r : ResultRecord) (o : TestOutcome), LinearRegime.test r = .ok o →
        o.details.map Prod.fst = [("task_completed"), ("conversation_length")] ∨
        o.details.map Prod.fst = [("task_completed"), ("output_json")] ∨
        o.details.map Prod.fst =
          [("task_completed"), ("output_json"), ("regime_count_correct"),
           ("breakpoints_correct"), ("expected_regime_count"),
           ("expected_breakpoints"), ("tolerance_days")]) := by
  refine ⟨?_, ?_, ?_, ?_, ?_, ?_, ?_⟩
  · intro r
    rcases puzzle_test_cases r with ⟨n, hn⟩ | ⟨a, ha⟩
    · rw [hn]; rfl
    · rw [ha]; rfl
  · intro r o h
    rcases linear_test_ok_cases r o h with ⟨n, rfl⟩ | ⟨fb, pj, rfl⟩ |
      ⟨obj, rc, rcc, bc, bfb, rfl⟩
    · rfl
    · rfl
    · rfl
  · intro r a h ha
    rw [puzzle_test_verdict r a h ha]
    exact ⟨rfl, rfl, rfl⟩
  · intro r o v h hv ht
    exact linear_output_json_recorded r o v hv ht h
  · intro r fields bl bc bfb hext htr hk1 hk2 hint hbp hcb
    exact ⟨_, linear_test_full_validation r fields bl bc bfb hext htr hk1 hk2 hint hbp hcb,
      rfl, rfl, rfl, rfl, rfl, rfl⟩
  · intro r
    rcases puzzle_test_cases r with ⟨n, hn⟩ | ⟨a, ha⟩
    · rw [hn]; exact Or.inl rfl
    · rw [ha]; exact Or.inr rfl
  · intro r o h
    rcases linear_test_ok_cases r o h with ⟨n, rfl⟩ | ⟨fb, pj, rfl⟩ |
      ⟨obj, rc, rcc, bc, bfb, rfl⟩
    · exact Or.inl rfl
    · exact Or.inr (Or.inl rfl)
    · exact Or.inr (Or.inr rfl)

/-- C8 (witness): a record whose payload reaches field validation and
*fails* it (wrong regime count, wrong breakpoint count) still exposes
the payload, both per-field booleans, the expected values and the
tolerance constant — while the outcome itself fails. -/
theorem c8_witness :
    (EightPuzzle.test ⟨some ("success"), none, some ("<answer>efptgk</answer>")⟩).details.lookup
        ("output_answer") = some (.jstr ("efptgk")) ∧
    exceptPassed (LinearRegime.test c8_fail_record) = some false ∧
    exceptOutcomeDetail ("output_json") (LinearRegime.test c8_fail_record) =
      some (.jobj c8_fields) ∧
    exceptOutcomeDetail ("regime_count_correct") (LinearRegime.test c8_fail_record) =
      some (.jbool false) ∧
    exceptOutcomeDetail ("breakpoints_correct") (LinearRegime.test c8_fail_record) =
      some (.jbool false) ∧
    exceptOutcomeDetail ("expected_breakpoints") (LinearRegime.test c8_fail_record) =
      some (.jarr (LinearRegime.EXPECTED_BREAKPOINTS.map JVal.jstr)) ∧
    exceptOutcomeDetail ("tolerance_days") (LinearRegime.test c8_fail_record) =
      some (.jint LinearRegime.TOLERANCE_DAYS) := by
  have hpz := c8_details_exposure.2.2.1
    ⟨some ("success"), none, some ("<answer>efptgk</answer>")⟩ ("efptgk") (by rfl) (by decide)
  obtain ⟨o, ho, hoj, hrcc, hbc, herc, hebp, htol⟩ := c8_details_exposure.2.2.2.2.1
    c8_fail_record c8_fields [(.jstr ("2024-01-01"))] false
    ("Expected 2 breakpoints, got 1.") (by rfl) (by rfl) (by rfl) (by rfl) (by rfl)
    (by rfl) (by rfl)
  refine ⟨hpz.1, ?_, ?_, ?_, ?_, ?_, ?_⟩
  · rfl
  · rw [ho]; dsimp only [exceptOutcomeDetail]; exact hoj
  · rw [ho]
    dsimp only [exceptOutcomeDetail]
    exact hrcc.trans (by rfl)
  · rw [ho]; dsimp only [exceptOutcomeDetail]; exact hbc
  · rw [ho]; dsimp only [exceptOutcomeDetail]; exact hebp
  · rw [ho]; dsimp only [exceptOutcomeDetail]; exact htol

/-- C9: once a payload is extracted from a higher-precedence source,
all validation operates on it alone and no validation failure triggers
fallback.  First conjunct: a wrong direct-result payload (puzzle task)
yields `passed = false` while still being the recorded payload,
irrespective of the conversation.  Second conjunct: a payload found in
the tool-call pass shadows every content payload, again even when it is
wrong.  Third conjunct: a truthy direct-result payload for the
linear-regime task makes the whole outcome conversation-independent,
and every normal return — including the missing-field and type-mismatch
schema failures — records that payload, so those failures never fall
back either. -/
theorem c9_no_fallback_after_validation_failure :
    (∀ (status : Option String) (conv : List Message) (tr a : String),
      tr ≠ "" → EightPuzzle.extract_answer_from_text tr = some a → a ≠ "" →
      EightPuzzle.normalize_answer a ≠
        EightPuzzle.normalize_answer EightPuzzle.EXPECTED_ANSWER →
      (EightPuzzle.test ⟨status, some conv, some tr⟩).passed = false ∧
      (EightPuzzle.test ⟨status, some conv, some tr⟩).details.lookup ("output_answer") =
        some (.jstr a)) ∧
    (∀ (status : Option String) (conv : List Message) (a : String),
      conv.reverse.findSome?
          (msgToolResult EightPuzzle.extract_answer_from_text (fun s => s != "")) =
        some a →
      a ≠ "" →
      (EightPuzzle.test ⟨status, some conv, none⟩).details.lookup ("output_answer") =
        some (.jstr a) ∧
      (EightPuzzle.normalize_answer a ≠
          EightPuzzle.normalize_answer EightPuzzle.EXPECTED_ANSWER →
        (EightPuzzle.test ⟨status, some conv, none⟩).passed = false)) ∧
    (∀ (status : Option String) (conv conv' : Option (List Message)) (tr : String)
        (v : JVal),
      tr ≠ "" → LinearRegime.extract_json_from_text tr = some v → pyTruthy v = true →
      (LinearRegime.test ⟨status, conv, some tr⟩ =
        LinearRegime.test ⟨status, conv', some tr⟩) ∧
      (∀ o : TestOutcome, LinearRegime.test ⟨status, conv, some tr⟩ = .ok o →
        o.details.lookup ("output_json") = some v)) := by
  refine ⟨?_, ?_, ?_⟩
  · intro status conv tr a htr hex ha hne
    rw [puzzle_test_verdict ⟨status, some conv, some tr⟩ a
      (extracted_answer_direct status (some conv) tr a htr hex ha) ha]
    constructor
    · show ((status == some ("success")) &&
        (EightPuzzle.normalize_answer a ==
          EightPuzzle.normalize_answer EightPuzzle.EXPECTED_ANSWER)) = false
      rw [beq_eq_false_iff_ne.mpr hne, Bool.and_false]
    · rfl
  · intro status conv a hpass1 ha
    have hconv : EightPuzzle.extract_answer_from_conversation conv = some a := by
      unfold EightPuzzle.extract_answer_from_conversation scanConversation
      rw [hpass1]
    have hext : EightPuzzle.extracted_answer ⟨status, some conv, none⟩ = some a := by
      simp [EightPuzzle.extracted_answer, hconv]
    rw [puzzle_test_verdict ⟨status, some conv, none⟩ a hext ha]
    constructor
    · rfl
    · intro hne
      show ((status == some ("success")) &&
        (EightPuzzle.normalize_answer a ==
          EightPuzzle.normalize_answer EightPuzzle.EXPECTED_ANSWER)) = false
      rw [beq_eq_false_iff_ne.mpr hne, Bool.and_false]
  · intro status conv conv' tr v htr hex hv
    have e1 := extracted_json_direct status conv tr v htr hex hv
    have e2 := extracted_json_direct status conv' tr v htr hex hv
    constructor
    · unfold LinearRegime.test
      rw [e1, e2]
      dsimp only
      rw [if_neg (fun hc => hc hv), if_neg (fun hc => hc hv)]
    · intro o ho
      exact linear_output_json_recorded _ o v e1 hv ho

/-- C9 (witness): direct payload `WRONG` against a conversation holding
the correct answer fails and records `WRONG`; a schema-invalid direct
JSON payload (missing both required fields) makes the linear outcome
independent of a conversation holding a complete correct payload, and
the schema-failure outcome records the direct payload. -/
theorem c9_witness :
    ((EightPuzzle.test ⟨some ("success"), some c9_conv, some ("<answer>WRONG</answer>")⟩).passed
        = false ∧
      (EightPuzzle.test
          ⟨some ("success"), some c9_conv, some ("<answer>WRONG</answer>")⟩).details.lookup
          ("output_answer") = some (.jstr ("WRONG"))) ∧
    (LinearRegime.test
        ⟨some ("success"), some c9_linear_conv, some ("\x7b\"foo\": 1\x7d")⟩ =
      LinearRegime.test ⟨some ("success"), none, some ("\x7b\"foo\": 1\x7d")⟩) ∧
    exceptOutcomeDetail ("output_json")
        (LinearRegime.test
          ⟨some ("success"), some c9_linear_conv, some ("\x7b\"foo\": 1\x7d")⟩) =
      some (.jobj [(("foo"), .jint 1)]) ∧
    exceptPassed
        (LinearRegime.test
          ⟨some ("success"), some c9_linear_conv, some ("\x7b\"foo\": 1\x7d")⟩) =
      some false := by
  refine ⟨?_, ?_, ?_, ?_⟩
  · exact c9_no_fallback_after_validation_failure.1 (some ("success")) c9_conv
      ("<answer>WRONG</answer>") ("WRONG") (by decide) (by decide) (by decide) (by decide)
  · exact (c9_no_fallback_after_validation_failure.2.2 (some ("success"))
      (some c9_linear_conv) none ("\x7b\"foo\": 1\x7d") (.jobj [(("foo"), .jint 1)])
      (by decide) (by rfl) (by rfl)).1
  · rfl
  · rfl

/-- C10: a tag pair whose trimmed body is empty does not count as a
found payload: a `task_result` extracting to the empty string behaves
exactly like an absent `task_result` (the scanner falls through to the
conversation), and if the conversation yields nothing the evaluator
reports the not-found outcome; an empty-string `task_result` is likewise
skipped by the truthiness gate. -/
theorem c10_empty_payload_not_found :
    ∀ (status : Option String) (conv : List Message) (t : String),
      t ≠ "" → EightPuzzle.extract_answer_from_text t = some ("") →
      (EightPuzzle.test ⟨status, some conv, some t⟩ =
        EightPuzzle.test ⟨status, some conv, none⟩) ∧
      (EightPuzzle.extract_answer_from_conversation conv = none →
        EightPuzzle.test ⟨status, some conv, some t⟩ =
          EightPuzzle.not_found_outcome (status == some ("success")) conv.length) ∧
      (EightPuzzle.test ⟨status, some conv, some ("")⟩ =
        EightPuzzle.test ⟨status, some conv, none⟩) := by
  intro status conv t ht hex
  have hpipe : EightPuzzle.extracted_answer ⟨status, some conv, some t⟩ =
      EightPuzzle.extract_answer_from_conversation conv := by
    simp [EightPuzzle.extracted_answer, ht, hex]
  have hpipe0 : EightPuzzle.extracted_answer ⟨status, some conv, none⟩ =
      EightPuzzle.extract_answer_from_conversation conv := by
    simp [EightPuzzle.extracted_answer]
  refine ⟨?_, ?_, ?_⟩
  · unfold EightPuzzle.test
    rw [hpipe, hpipe0]
  · intro hconv
    unfold EightPuzzle.test
    rw [hpipe, hconv]
    rfl
  · have hpipe2 : EightPuzzle.extracted_answer ⟨status, some conv, some ("")⟩ =
        EightPuzzle.extract_answer_from_conversation conv := by
      simp [EightPuzzle.extracted_answer]
    unfold EightPuzzle.test
    rw [hpipe2, hpipe0]

/-- C10 (witness): a whitespace-only tag body with an empty conversation
yields the not-found outcome. -/
theorem c10_witness :
    EightPuzzle.test ⟨some ("success"), some [], some ("<answer>   </answer>")⟩ =
      EightPuzzle.not_found_outcome true 0 := by
  have h := (c10_empty_payload_not_found (some ("success")) []
    ("<answer>   </answer>") (by decide) (by rfl)).2.1 (by rfl)
  exact h
